import Mathlib

/-!
Shallow embedding of the LiteDRAM TMR memory-controller scheduling core
(`litedram/core/multiplexer.py`, `litedram/core/bankmachine.py`) and proofs of
the stated properties of its command arbiter, bus steerer, multiplexer FSM,
bank machine and voting layer.

All machine signals are modelled as `Bool` (1-bit) or `Nat` (multi-bit buses,
with explicit `% 2^w` where the hardware truncates).  Combinational blocks
become pure functions; registered (`self.sync`) logic becomes explicit step
functions from current-cycle inputs to next-cycle register values.
-/

namespace LitexDRAMTMR

/-! ## Command arbiter (`_CommandChooser` / `_CommandChooserInt`)

A request stream carries the `cmd_request_rw_layout` fields used by the
chooser; `a`/`ba` are multi-bit, the rest are single-bit. -/

/-- One request stream of `cmd_request_rw_layout`, as seen by the chooser. -/
structure CmdRequest where
  valid    : Bool
  a        : Nat
  ba       : Nat
  cas      : Bool
  ras      : Bool
  we       : Bool
  is_cmd   : Bool
  is_read  : Bool
  is_write : Bool
deriving Repr, DecidableEq

/-- The four `want_*` inputs of the chooser. -/
structure WantMask where
  want_reads     : Bool
  want_writes    : Bool
  want_cmds      : Bool
  want_activates : Bool
deriving Repr, DecidableEq

/-- Source `is_act_cmd = request.ras & ~request.cas & ~request.we`
(multiplexer.py line 156). -/
def is_act_cmd (r : CmdRequest) : Bool := r.ras && !r.cas && !r.we

/-- Source eligibility bit (multiplexer.py lines 156-160):
`valids[i] = request.valid & (command | (read & write))` with
`command = is_cmd & want_cmds & (~is_act_cmd | want_activates)`,
`read = (is_read == want_reads)`, `write = (is_write == want_writes)`. -/
def valids (m : WantMask) (r : CmdRequest) : Bool :=
  let command := r.is_cmd && m.want_cmds && (!is_act_cmd r || m.want_activates)
  let read := r.is_read == m.want_reads
  let write := r.is_write == m.want_writes
  r.valid && (command || (read && write))

/-- Combinational `cmd.valid = choices[arbiter.grant]` where
`choices = Array(valids[i])` (multiplexer.py lines 165-169). -/
def cmd_valid {n : Nat} (m : WantMask) (reqs : Fin n → CmdRequest)
    (grant : Fin n) : Bool :=
  valids m (reqs grant)

/-- Combinational per-stream ready (multiplexer.py lines 185-189):
`request[i].ready = cmd.valid & cmd.ready & (arbiter.grant == i)`. -/
def request_ready {n : Nat} (m : WantMask) (reqs : Fin n → CmdRequest)
    (grant : Fin n) (cmd_ready : Bool) (i : Fin n) : Bool :=
  cmd_valid m reqs grant && cmd_ready && decide (grant = i)

/-- Arbiter clock-enable (multiplexer.py line 193):
`arbiter.ce = cmd.ready | ~cmd.valid`. -/
def arbiter_ce {n : Nat} (m : WantMask) (reqs : Fin n → CmdRequest)
    (grant : Fin n) (cmd_ready : Bool) : Bool :=
  cmd_ready || !cmd_valid m reqs grant

/-- One re-arbitration step of migen's `RoundRobin` with `SP_CE` (the arbiter
instantiated at multiplexer.py line 163): when enabled, the grant register
moves to the first index after the current grant (cyclically, the current
grant itself excluded) whose request bit is set, and keeps its value when no
other request bit is set. -/
def rr_step {n : Nat} (request : Fin n → Bool) (grant : Fin n) : Fin n :=
  have hn : 0 < n := Nat.lt_of_le_of_lt (Nat.zero_le _) grant.isLt
  let candidates : List (Fin n) :=
    (List.range (n - 1)).map (fun k => ⟨(grant.val + k + 1) % n, Nat.mod_lt _ hn⟩)
  match candidates.find? (fun t => request t) with
  | some t => t
  | none   => grant

/-- Registered grant update: the `RoundRobin` register only changes when
`arbiter.ce` is high (migen `SP_CE` switch policy). -/
def grant_next {n : Nat} (m : WantMask) (reqs : Fin n → CmdRequest)
    (grant : Fin n) (cmd_ready : Bool) : Fin n :=
  if arbiter_ce m reqs grant cmd_ready then
    rr_step (fun i => valids m (reqs i)) grant
  else
    grant

/-- Chooser accept condition, as used by its `accept()` helper:
`cmd.valid & cmd.ready`. -/
def chooser_accept {n : Nat} (m : WantMask) (reqs : Fin n → CmdRequest)
    (grant : Fin n) (cmd_ready : Bool) : Bool :=
  cmd_valid m reqs grant && cmd_ready

/-! ### Concrete chooser inputs used as witnesses -/

/-- A valid read request. -/
def exReadReq : CmdRequest :=
  { valid := true, a := 5, ba := 1, cas := true, ras := false, we := false,
    is_cmd := false, is_read := true, is_write := false }

/-- A valid write request. -/
def exWriteReq : CmdRequest :=
  { valid := true, a := 9, ba := 0, cas := true, ras := false, we := true,
    is_cmd := false, is_read := false, is_write := true }

/-- A mask wanting only reads. -/
def exReadMask : WantMask :=
  { want_reads := true, want_writes := false, want_cmds := false,
    want_activates := false }

/-- Two concrete request streams. -/
def exReqs : Fin 2 → CmdRequest := ![exReadReq, exWriteReq]

/-! ## Bank machine (`bankmachine.py`)

`_AddressSlicer` splits an address into row (high bits) and column (low
bits below the alignment boundary).  The bank-machine FSM is modelled as a
pure function from (state, registered row tracking, voted inputs) to the
cycle's combinational outputs and next state. -/

/-- Geometry parameters of the address slicer. -/
structure BMGeom where
  colbits       : Nat
  address_align : Nat
deriving Repr, DecidableEq

/-- Source `_AddressSlicer.row`: `address[split:]` with
`split = colbits - address_align`. -/
def sliceRow (g : BMGeom) (addr : Nat) : Nat :=
  addr >>> (g.colbits - g.address_align)

/-- Source `_AddressSlicer.col`:
`Cat(Replicate(0, address_align), address[:split])`, i.e. the low `split`
bits shifted up by the alignment. -/
def sliceCol (g : BMGeom) (addr : Nat) : Nat :=
  (addr % 2 ^ (g.colbits - g.address_align)) <<< g.address_align

/-- Timing/configuration parameters of one bank machine that the FSM uses. -/
structure BMSettings where
  with_auto_precharge : Bool
  tRP  : Nat
  tRCD : Nat
deriving Repr, DecidableEq

/-- FSM state of a bank machine.  `TRP k` / `TRCD k` are the intermediate
wait states created by `fsm.delayed_enter("TRP", "ACTIVATE", tRP - 1)` and
`fsm.delayed_enter("TRCD", "REGULAR", tRCD - 1)`; `k` counts the wait cycles
still remaining after the current one. -/
inductive BMState where
  | REGULAR
  | PRECHARGE
  | AUTOPRECHARGE
  | ACTIVATE
  | REFRESH
  | TRP (k : Nat)
  | TRCD (k : Nat)
deriving Repr, DecidableEq

/-- Per-cycle voted inputs of the bank-machine FSM: the voted command-buffer
outputs (`bufValidVote.control`, `bufWeVote.control`, `bufAddrVote.control`,
`lookValidVote.control`, `lookAddrVote.control`), the refresh request, the
multiplexer's `cmd.ready` back-pressure and the voted timing-guard ready
bits (`twtpVote`/`trcVote`/`trasVote` `.control`). -/
structure BMInputs where
  refresh_req : Bool
  bufValid    : Bool
  bufWe       : Bool
  bufAddr     : Nat
  lookValid   : Bool
  lookAddr    : Nat
  cmd_ready   : Bool
  twtp_ready  : Bool
  trc_ready   : Bool
  tras_ready  : Bool
deriving Repr, DecidableEq

/-- Command endpoint driven by a bank machine in one cycle. -/
structure BMCmd where
  valid    : Bool := false
  cas      : Bool := false
  ras      : Bool := false
  we       : Bool := false
  is_cmd   : Bool := false
  is_read  : Bool := false
  is_write : Bool := false
  a        : Nat  := 0
  ba       : Nat  := 0
deriving Repr, DecidableEq

/-- All per-cycle outputs of the bank-machine FSM, plus the next state. -/
structure BMOut where
  cmd                : BMCmd := {}
  refresh_gnt        : Bool := false
  wdata_ready        : Bool := false
  rdata_valid        : Bool := false
  row_open           : Bool := false
  row_close          : Bool := false
  row_col_n_addr_sel : Bool := false
  nextState          : BMState
deriving Repr, DecidableEq

/-- `row_close` is driven high exactly in the PRECHARGE, AUTOPRECHARGE and
REFRESH states (bankmachine.py lines 414, 421, 441). -/
def bmRowClose : BMState → Bool
  | .PRECHARGE     => true
  | .AUTOPRECHARGE => true
  | .REFRESH       => true
  | _              => false

/-- Auto-precharge generation (bankmachine.py lines 362-369): when
auto-precharge is enabled and both the voted lookahead and voted current
buffer entries are valid and reference different rows,
`auto_precharge = (row_close == 0)`; otherwise it stays 0. -/
def bmAutoPrecharge (g : BMGeom) (with_auto_precharge : Bool) (st : BMState)
    (inp : BMInputs) : Bool :=
  if with_auto_precharge then
    if inp.lookValid && inp.bufValid then
      if sliceRow g inp.lookAddr ≠ sliceRow g inp.bufAddr then
        !bmRowClose st
      else false
    else false
  else false

/-- Entry into the delayed TRP chain: `delayed_enter("TRP", "ACTIVATE", d)`
spends `d` intermediate cycles before ACTIVATE (direct entry when `d = 0`). -/
def delayEnterTRP (d : Nat) : BMState :=
  if d = 0 then .ACTIVATE else .TRP (d - 1)

/-- Entry into the delayed TRCD chain:
`delayed_enter("TRCD", "REGULAR", d)`. -/
def delayEnterTRCD (d : Nat) : BMState :=
  if d = 0 then .REGULAR else .TRCD (d - 1)

/-- One combinational evaluation of the bank-machine FSM
(bankmachine.py lines 373-448) together with the address generation
(lines 306-314): `cmd.ba = n` and `cmd.a` is the sliced row when
`row_col_n_addr_sel` is set (ACTIVATE issuing), else
`(auto_precharge << 10) | col` of the voted buffer address.  `row` and
`row_opened` are the current row-tracking registers; `row_hit` is
`row == slicer.row(bufAddrVote.control)` (line 296). -/
def bmOut (g : BMGeom) (s : BMSettings) (n : Nat) (st : BMState) (row : Nat)
    (row_opened : Bool) (inp : BMInputs) : BMOut :=
  let ap := bmAutoPrecharge g s.with_auto_precharge st inp
  let colA : Nat := ((if ap then 1 else 0) <<< 10) ||| sliceCol g inp.bufAddr
  match st with
  | .REGULAR =>
    if inp.refresh_req then
      { cmd := { a := colA, ba := n }, nextState := .REFRESH }
    else if inp.bufValid then
      if row_opened then
        if row = sliceRow g inp.bufAddr then
          { cmd := { valid := true, cas := true, we := inp.bufWe,
                     is_write := inp.bufWe, is_read := !inp.bufWe,
                     a := colA, ba := n },
            wdata_ready := inp.bufWe && inp.cmd_ready,
            rdata_valid := !inp.bufWe && inp.cmd_ready,
            nextState := if inp.cmd_ready && ap then .AUTOPRECHARGE
                         else .REGULAR }
        else
          { cmd := { a := colA, ba := n }, nextState := .PRECHARGE }
      else
        { cmd := { a := colA, ba := n }, nextState := .ACTIVATE }
    else
      { cmd := { a := colA, ba := n }, nextState := .REGULAR }
  | .PRECHARGE =>
    if inp.twtp_ready && inp.tras_ready then
      { cmd := { valid := true, ras := true, we := true, is_cmd := true,
                 a := colA, ba := n },
        row_close := true,
        nextState := if inp.cmd_ready then delayEnterTRP (s.tRP - 1)
                     else .PRECHARGE }
    else
      { cmd := { a := colA, ba := n }, row_close := true,
        nextState := .PRECHARGE }
  | .AUTOPRECHARGE =>
    { cmd := { a := colA, ba := n }, row_close := true,
      nextState := if inp.twtp_ready && inp.tras_ready then
                     delayEnterTRP (s.tRP - 1)
                   else .AUTOPRECHARGE }
  | .ACTIVATE =>
    if inp.trc_ready then
      { cmd := { valid := true, is_cmd := true, ras := true,
                 a := sliceRow g inp.bufAddr, ba := n },
        row_col_n_addr_sel := true, row_open := true,
        nextState := if inp.cmd_ready then delayEnterTRCD (s.tRCD - 1)
                     else .ACTIVATE }
    else
      { cmd := { a := colA, ba := n }, nextState := .ACTIVATE }
  | .REFRESH =>
    { cmd := { is_cmd := true, a := colA, ba := n },
      refresh_gnt := inp.twtp_ready, row_close := true,
      nextState := if !inp.refresh_req then .REGULAR else .REFRESH }
  | .TRP k =>
    { cmd := { a := colA, ba := n },
      nextState := if k = 0 then .ACTIVATE else .TRP (k - 1) }
  | .TRCD k =>
    { cmd := { a := colA, ba := n },
      nextState := if k = 0 then .REGULAR else .TRCD (k - 1) }

/-- Row-tracking register update (bankmachine.py lines 297-303): on
`row_close` the bank forgets its open row; else on `row_open` it records the
sliced voted buffer address as the open row. -/
def bmRowStep (g : BMGeom) (o : BMOut) (inp : BMInputs) (row : Nat)
    (row_opened : Bool) : Nat × Bool :=
  if o.row_close then (row, false)
  else if o.row_open then (sliceRow g inp.bufAddr, true)
  else (row, row_opened)

/-- Replica command-queue handshake (bankmachine.py lines 219-238): each of
the three replicated lookahead FIFOs receives `req.valid` on its sink, and
`req.ready` is the conjunction of the three sink readies. -/
def bmReqReady (ready1 ready2 ready3 : Bool) : Bool :=
  ready1 && ready2 && ready3

/-- A replica lookahead FIFO enqueues in a cycle iff its sink sees
`valid && ready`; the sink valid is wired straight from `req.valid`. -/
def fifoEnq (reqValid sinkReady : Bool) : Bool :=
  reqValid && sinkReady

/-! ## Voting layer

The majority voter (`TMRInput` / `TMROutput` / `vote_TMR`) is defined in
`litedram/common.py`, which is not among the provided core sources; only its
instantiations are (e.g. `bufAddrVote` at bankmachine.py lines 258-260 and
`vote_TMR` at multiplexer.py lines 521-525). -/

/-- Modelled from the spec: the majority vote applied at every replica
boundary by `TMRInput`/`vote_TMR` (defined in the missing
`litedram/common.py`); per the spec, `vote(a, b, c) = majority(a, b, c)`
computed independently for each bit of the bus. -/
def vote (a b c : Nat) : Nat :=
  (a &&& b) ||| (b &&& c) ||| (a &&& c)

/-- Single-bit majority, the per-bit component of `vote`. -/
def vote1 (a b c : Bool) : Bool :=
  (a && b) || (b && c) || (a && c)

/-! ## Bus steerer (`_SteererInt`)

One DFI phase of the steerer; all the listed outputs are registered
(`self.sync`), so the value computed here from cycle-`T` inputs appears on
the phase in cycle `T+1`. -/

/-- One command source of the steerer (`cmd_request_rw_layout` endpoint with
its handshake). -/
structure SteerCmd where
  valid    : Bool
  ready    : Bool
  a        : Nat
  ba       : Nat
  cas      : Bool
  ras      : Bool
  we       : Bool
  is_read  : Bool
  is_write : Bool
deriving Repr, DecidableEq

/-- Registered outputs of one DFI phase. -/
structure PhaseRegs where
  cs_n      : Nat
  bank      : Nat
  address   : Nat
  cas_n     : Bool
  ras_n     : Bool
  we_n      : Bool
  rddata_en : Bool
  wrdata_en : Bool
deriving Repr, DecidableEq

/-- Steerer source indices (multiplexer.py line 210). -/
def STEER_NOP : Fin 4 := 0

/-- Steerer source index of the housekeeping/activate arbiter. -/
def STEER_CMD : Fin 4 := 1

/-- Steerer source index of the read/write data arbiter. -/
def STEER_REQ : Fin 4 := 2

/-- Steerer source index of the refresh command. -/
def STEER_REFRESH : Fin 4 := 3

/-- Source `valid_and(cmd, attr) = cmd.valid & cmd.ready & attr`
(multiplexer.py lines 317-321). -/
def valid_and (c : SteerCmd) (attr : Bool) : Bool :=
  c.valid && c.ready && attr

/-- Next-cycle registered outputs of one steerer phase
(multiplexer.py lines 323-360).  `rankbits = log2_int(nranks)` so
`nranks = 2 ^ rankbits`; `ba` is a `(bankbits + rankbits)`-bit signal whose
top `rankbits` bits feed the one-hot rank decoder; `cs_n = ~decoder.o`
except that phase 0 drives `cs_n = 0` (all ranks) when the refresh source is
selected.  Strobes are active-low and gated by `valid & ready`. -/
def steererPhaseNext (rankbits bankbits : Nat) (isPhase0 : Bool)
    (cmds : Fin 4 → SteerCmd) (sel : Fin 4) : PhaseRegs :=
  let c := cmds sel
  let nranks := 2 ^ rankbits
  let cs_n : Nat :=
    if rankbits = 0 then 0
    else
      let rankIdx := (c.ba / 2 ^ bankbits) % nranks
      let decoded := 1 <<< rankIdx
      if isPhase0 && decide (sel = STEER_REFRESH) then 0
      else Nat.xor (2 ^ nranks - 1) decoded
  { cs_n      := cs_n,
    bank      := c.ba % 2 ^ bankbits,
    address   := c.a,
    cas_n     := !valid_and c c.cas,
    ras_n     := !valid_and c c.ras,
    we_n      := !valid_and c c.we,
    rddata_en := valid_and c c.is_read,
    wrdata_en := valid_and c c.is_write }

/-- Registered trace of one steerer phase: the phase's outputs in cycle
`t + 1` are the register update computed from the sources and select of
cycle `t` (initial register contents `init`). -/
def steererRun (rankbits bankbits : Nat) (isPhase0 : Bool) (init : PhaseRegs)
    (ins : Nat → (Fin 4 → SteerCmd) × Fin 4) : Nat → PhaseRegs
  | 0     => init
  | t + 1 => steererPhaseNext rankbits bankbits isPhase0 (ins t).1 (ins t).2

/-! ## Multiplexer top FSM (`Multiplexer`, multiplexer.py lines 743-816) -/

/-- Top FSM state.  `RTW k` are the wait states of
`fsm.delayed_enter("RTW", "WRITE", read_latency - 1)`. -/
inductive MuxState where
  | READ
  | WRITE
  | REFRESH
  | WTR
  | RTW (k : Nat)
deriving Repr, DecidableEq

/-- Per-cycle inputs of the top FSM other than the bank grants. -/
structure MuxInputs where
  read_available  : Bool
  write_available : Bool
  max_read_time   : Bool
  max_write_time  : Bool
  refresh_last    : Bool
  twtr_ready      : Bool
deriving Repr, DecidableEq

/-- Aggregated refresh grant (multiplexer.py lines 718-720):
`go_to_refresh = reduce(and_, [bm.refresh_gnt for bm in bank_machines])`. -/
def goToRefresh (gnts : List Bool) : Bool :=
  gnts.all (fun b => b)

/-- Entry into the delayed RTW chain. -/
def delayEnterRTW (d : Nat) : MuxState :=
  if d = 0 then .WRITE else .RTW (d - 1)

/-- Next-state function of the multiplexer top FSM.  In READ/WRITE the
refresh check is the last `If` in the `fsm.act` body, so it takes priority
over the turnaround transition. -/
def muxNext (read_latency : Nat) (gnts : List Bool) (st : MuxState)
    (inp : MuxInputs) : MuxState :=
  match st with
  | .READ =>
    if goToRefresh gnts then .REFRESH
    else if inp.write_available && (!inp.read_available || inp.max_read_time)
    then delayEnterRTW (read_latency - 1)
    else .READ
  | .WRITE =>
    if goToRefresh gnts then .REFRESH
    else if inp.read_available && (!inp.write_available || inp.max_write_time)
    then .WTR
    else .WRITE
  | .REFRESH => if inp.refresh_last then .READ else .REFRESH
  | .WTR     => if inp.twtr_ready then .READ else .WTR
  | .RTW k   => if k = 0 then .WRITE else .RTW (k - 1)

/-- A snapshot of one bank machine: its configuration, FSM state, row
tracking registers and voted inputs for the cycle. -/
structure BankSnap where
  g          : BMGeom
  s          : BMSettings
  n          : Nat
  st         : BMState
  row        : Nat
  row_opened : Bool
  inp        : BMInputs
deriving Repr, DecidableEq

/-- The `refresh_gnt` output a bank machine presents to the multiplexer. -/
def bankGnt (b : BankSnap) : Bool :=
  (bmOut b.g b.s b.n b.st b.row b.row_opened b.inp).refresh_gnt

/-! ### Concrete bank machine and multiplexer inputs used as witnesses -/

/-- A small geometry: 2 column bits, no alignment, so the row is
`addr / 4`. -/
def exG : BMGeom := { colbits := 2, address_align := 0 }

/-- Concrete bank-machine settings with auto-precharge enabled. -/
def exS : BMSettings := { with_auto_precharge := true, tRP := 3, tRCD := 3 }

/-- Bank-machine inputs holding a valid row-hit write at address 0 with a
lookahead to a different row. -/
def exBMInp : BMInputs :=
  { refresh_req := false, bufValid := true, bufWe := true, bufAddr := 0,
    lookValid := true, lookAddr := 4, cmd_ready := true, twtp_ready := true,
    trc_ready := true, tras_ready := true }

/-- A bank machine sitting in REFRESH with its write-to-precharge guard
ready, hence granting refresh. -/
def exBankRefresh : BankSnap :=
  { g := exG, s := exS, n := 0, st := .REFRESH, row := 0,
    row_opened := false, inp := exBMInp }

/-- Multiplexer inputs with no pending activity. -/
def exMuxInp : MuxInputs :=
  { read_available := false, write_available := false, max_read_time := false,
    max_write_time := false, refresh_last := false, twtr_ready := true }

/-- Concrete steerer sources: all four slots carry the same fully-asserted
accepted command. -/
def exSteerCmd : SteerCmd :=
  { valid := true, ready := true, a := 21, ba := 2, cas := true, ras := true,
    we := true, is_read := true, is_write := true }

/-- Concrete steerer source array. -/
def exSteerCmds : Fin 4 → SteerCmd := fun _ => exSteerCmd

/-- Concrete steerer input trace: every cycle selects the data slot. -/
def exSteerIns : Nat → (Fin 4 → SteerCmd) × Fin 4 := fun _ =>
  (exSteerCmds, STEER_REQ)

/-- Initial phase register contents for the steerer trace. -/
def exPhaseInit : PhaseRegs :=
  { cs_n := 0, bank := 0, address := 0, cas_n := true, ras_n := true,
    we_n := true, rddata_en := false, wrdata_en := false }

/-- A refresh-shaped command (valid, accepted, `ras` only, rank bit 0). -/
def exRefreshCmd : SteerCmd :=
  { valid := true, ready := true, a := 0, ba := 0, cas := true, ras := true,
    we := false, is_read := false, is_write := false }

/-- Steerer sources whose refresh slot carries the refresh command. -/
def exRefreshCmds : Fin 4 → SteerCmd := fun i =>
  if i = STEER_REFRESH then exRefreshCmd else exSteerCmd

/-! ## Theorems -/

/-- C1: in the command arbiter, the round-robin grant register advances
(its clock-enable `arbiter.ce` is high) if and only if the previously granted
command is accepted (`cmd.valid & cmd.ready`) or no command is currently
valid; consequently a valid but not-yet-accepted command stays selected. -/
theorem chooser_grant_advance_iff {n : Nat} (m : WantMask)
    (reqs : Fin n → CmdRequest) (grant : Fin n) :
    (∀ cmd_ready : Bool,
      arbiter_ce m reqs grant cmd_ready =
        (chooser_accept m reqs grant cmd_ready || !cmd_valid m reqs grant)) ∧
    (cmd_valid m reqs grant = true → grant_next m reqs grant false = grant) := by
  constructor
  · intro cmd_ready
    unfold arbiter_ce chooser_accept
    cases cmd_valid m reqs grant <;> cases cmd_ready <;> rfl
  · intro hv
    unfold grant_next arbiter_ce
    simp [hv]

/-- Witness for C1 at a concrete two-stream arbiter: with a valid read
selected and `cmd.ready` low, the grant register keeps its value. -/
theorem chooser_grant_advance_iff_witness :
    cmd_valid exReadMask exReqs 0 = true ∧
    grant_next exReadMask exReqs 0 false = 0 :=
  ⟨by decide, (chooser_grant_advance_iff exReadMask exReqs 0).2 (by decide)⟩

/-- C2: a stream's `ready` is asserted only when it is the granted stream and
the arbiter's output command is valid and accepted in that cycle; a stream
that is not the granted stream never sees its `ready` asserted. -/
theorem chooser_ready_only_granted {n : Nat} (m : WantMask)
    (reqs : Fin n → CmdRequest) (grant : Fin n) (cmd_ready : Bool) (i : Fin n) :
    (request_ready m reqs grant cmd_ready i = true →
      i = grant ∧ cmd_valid m reqs grant = true ∧ cmd_ready = true) ∧
    (i ≠ grant → request_ready m reqs grant cmd_ready i = false) := by
  constructor
  · intro h
    unfold request_ready at h
    simp only [Bool.and_eq_true, decide_eq_true_eq] at h
    exact ⟨h.2.symm, h.1.1, h.1.2⟩
  · intro hne
    have hgr : grant ≠ i := fun h => hne h.symm
    unfold request_ready
    simp [hgr]

/-- Witness for C2 at a concrete two-stream arbiter: the granted stream's
ready implies the accept conditions, and the ungranted stream's ready is
low. -/
theorem chooser_ready_only_granted_witness :
    ((0 : Fin 2) = 0 ∧ cmd_valid exReadMask exReqs 0 = true ∧ true = true) ∧
    request_ready exReadMask exReqs 0 true 1 = false :=
  ⟨(chooser_ready_only_granted exReadMask exReqs 0 true 0).1 (by decide),
   (chooser_ready_only_granted exReadMask exReqs 0 true 1).2 (by decide)⟩

/-- C3: a stream's eligibility bit (`valids[i]`) is set iff the stream is
valid and its category matches the wanted mask: either it is a housekeeping
command with `want_cmds` set — where an activate command
(`ras & ~cas & ~we`) additionally requires `want_activates` — or its
read/write flags agree with `want_reads`/`want_writes`. -/
theorem chooser_eligibility_iff {n : Nat} (m : WantMask)
    (reqs : Fin n → CmdRequest) (i : Fin n) :
    valids m (reqs i) = true ↔
      ((reqs i).valid = true ∧
        (((reqs i).is_cmd = true ∧ m.want_cmds = true ∧
            (is_act_cmd (reqs i) = true → m.want_activates = true)) ∨
          ((reqs i).is_read = m.want_reads ∧
            (reqs i).is_write = m.want_writes))) := by
  obtain ⟨v, a, ba, cas, ras, we, ic, ir, iw⟩ := reqs i
  obtain ⟨wr, ww, wc, wa⟩ := m
  dsimp only [valids, is_act_cmd]
  revert v cas ras we ic ir iw wr ww wc wa
  decide

/-- Witness for C3: the concrete read request is eligible under the
read-only mask, via the theorem's right-to-left direction. -/
theorem chooser_eligibility_iff_witness :
    valids exReadMask (exReqs 0) = true :=
  (chooser_eligibility_iff exReadMask exReqs 0).mpr
    (by refine ⟨by decide, Or.inr ⟨by decide, by decide⟩⟩)

/-- C4: whenever a bank machine in the REGULAR state drives a command with
`valid` and `cas` (a row-hit read or write), the row-open register is set
and the tracked open row equals the row slice of the voted current buffer
address. -/
theorem bank_row_hit_issue (g : BMGeom) (s : BMSettings) (n row : Nat)
    (row_opened : Bool) (inp : BMInputs)
    (hv : (bmOut g s n .REGULAR row row_opened inp).cmd.valid = true)
    (_hc : (bmOut g s n .REGULAR row row_opened inp).cmd.cas = true) :
    row_opened = true ∧ row = sliceRow g inp.bufAddr := by
  by_cases hr : inp.refresh_req = true
  · simp [bmOut, hr] at hv
  · by_cases hb : inp.bufValid = true
    · by_cases ho : row_opened = true
      · by_cases hh : row = sliceRow g inp.bufAddr
        · exact ⟨ho, hh⟩
        · simp [bmOut, hr, hb, ho, hh] at hv
      · simp [bmOut, hr, hb, ho] at hv
    · simp [bmOut, hr, hb] at hv

/-- Witness for C4: a concrete bank machine issuing a row-hit write at
address 0 with row register 0. -/
theorem bank_row_hit_issue_witness :
    true = true ∧ (0 : Nat) = sliceRow exG exBMInp.bufAddr :=
  bank_row_hit_issue exG exS 0 0 true exBMInp (by decide) (by decide)

/-- Helper: the `refresh_gnt` output of a bank machine is the voted
write-to-precharge readiness in the REFRESH state and low in every other
state. -/
theorem bmOut_refresh_gnt_eq (g : BMGeom) (s : BMSettings) (n : Nat)
    (st : BMState) (row : Nat) (ro : Bool) (inp : BMInputs) :
    (bmOut g s n st row ro inp).refresh_gnt =
      (match st with
        | .REFRESH => inp.twtp_ready
        | _ => false) := by
  cases st <;> simp only [bmOut] <;> (repeat' split) <;> rfl

/-- Helper: the delayed read-to-write entry is never the REFRESH state. -/
theorem delayEnterRTW_ne_refresh (d : Nat) :
    delayEnterRTW d ≠ MuxState.REFRESH := by
  unfold delayEnterRTW
  split <;> simp

/-- C5: the multiplexer top FSM only moves into its REFRESH state when every
bank machine asserts `refresh_gnt`, and each granting bank machine's voted
write-to-precharge guard is ready in that cycle. -/
theorem mux_refresh_needs_all_grants (read_latency : Nat)
    (banks : List BankSnap) (st : MuxState) (inp : MuxInputs)
    (hst : st ≠ .REFRESH)
    (h : muxNext read_latency (banks.map bankGnt) st inp = .REFRESH) :
    ∀ b ∈ banks, bankGnt b = true ∧ b.inp.twtp_ready = true := by
  have hall : goToRefresh (banks.map bankGnt) = true := by
    by_cases hg : goToRefresh (banks.map bankGnt) = true
    · exact hg
    · exfalso
      cases st with
      | READ =>
        simp only [muxNext, if_neg hg] at h
        split at h
        · exact delayEnterRTW_ne_refresh _ h
        · simp at h
      | WRITE =>
        simp only [muxNext, if_neg hg] at h
        split at h <;> simp at h
      | REFRESH => exact hst rfl
      | WTR =>
        simp only [muxNext] at h
        split at h <;> simp at h
      | RTW k =>
        simp only [muxNext] at h
        split at h <;> simp at h
  intro b hb
  have hg : bankGnt b = true := by
    have := List.all_eq_true.mp hall (bankGnt b)
      (List.mem_map_of_mem bankGnt hb)
    simpa using this
  refine ⟨hg, ?_⟩
  have heq := bmOut_refresh_gnt_eq b.g b.s b.n b.st b.row b.row_opened b.inp
  unfold bankGnt at hg
  rw [heq] at hg
  split at hg
  · exact hg
  · exact absurd hg (by simp)

/-- Witness for C5: with a single bank machine granting refresh from its
REFRESH state, the multiplexer in READ steps to REFRESH and the bank's
write-to-precharge guard is indeed ready. -/
theorem mux_refresh_needs_all_grants_witness :
    bankGnt exBankRefresh = true ∧ exBankRefresh.inp.twtp_ready = true :=
  mux_refresh_needs_all_grants 4 [exBankRefresh] .READ exMuxInp (by decide)
    (by decide) exBankRefresh (by decide)

/-- C6 counterexample: with auto-precharge enabled, both voted queue entries
valid and their rows distinct, the `auto_precharge` signal is nevertheless
low when the FSM is in a row-closing state (here PRECHARGE), because the
source gates it with `row_close == 0`. -/
theorem bank_auto_precharge_cex :
    exBMInp.lookValid = true ∧ exBMInp.bufValid = true ∧
    sliceRow exG exBMInp.lookAddr ≠ sliceRow exG exBMInp.bufAddr ∧
    bmAutoPrecharge exG true BMState.PRECHARGE exBMInp = false := by
  decide

/-- C6 (amended): with auto-precharge enabled, both voted entries valid and
their rows distinct, `auto_precharge` is asserted provided the FSM is not
simultaneously closing the row (`row_close` deasserted, as in the REGULAR
state where read/write commands issue). -/
theorem bank_auto_precharge_amended (g : BMGeom) (st : BMState)
    (inp : BMInputs) (h1 : inp.lookValid = true) (h2 : inp.bufValid = true)
    (h3 : sliceRow g inp.lookAddr ≠ sliceRow g inp.bufAddr)
    (h4 : bmRowClose st = false) :
    bmAutoPrecharge g true st inp = true := by
  unfold bmAutoPrecharge
  simp [h1, h2, h3, h4]

/-- Witness for the amended C6: the concrete row-change inputs in the
REGULAR state do assert `auto_precharge`. -/
theorem bank_auto_precharge_amended_witness :
    bmAutoPrecharge exG true BMState.REGULAR exBMInp = true :=
  bank_auto_precharge_amended exG .REGULAR exBMInp (by decide) (by decide)
    (by decide) (by decide)

/-- C7 counterexample: in a two-rank steerer, a phase other than phase 0
with the refresh source selected drives `cs_n` from the decoded rank bits
(here `cs_n = 2`), not the all-ranks value 0: only phase 0 carries the
refresh all-ranks override. -/
theorem steerer_refresh_cs_cex :
    (steererPhaseNext 1 1 false exRefreshCmds STEER_REFRESH).cs_n = 2 ∧
    (2 : Nat) ≠ 0 := by
  decide

/-- C7 (amended): in a multi-rank configuration, whenever the refresh
source is selected on the first DFI phase (phase 0), that phase's registered
chip-select output drives 0 (all ranks selected) on the following cycle;
other phases decode the rank bits normally. -/
theorem steerer_refresh_cs_amended (rankbits bankbits : Nat)
    (cmds : Fin 4 → SteerCmd) :
    (steererPhaseNext rankbits bankbits true cmds STEER_REFRESH).cs_n = 0 := by
  unfold steererPhaseNext
  by_cases h : rankbits = 0
  · simp [h]
  · simp [h]

/-- C8: each steerer phase output in cycle `T + 1` is determined by the
source selected in cycle `T`: the address and bank equal that source's
fields, and each strobe (active-low `cas_n`/`ras_n`/`we_n`) or data enable
is asserted only if that source's command was valid and accepted
(`valid & ready`) in cycle `T`. -/
theorem steerer_registered_outputs (rankbits bankbits : Nat)
    (isPhase0 : Bool) (init : PhaseRegs)
    (ins : Nat → (Fin 4 → SteerCmd) × Fin 4) (t : Nat) :
    (steererRun rankbits bankbits isPhase0 init ins (t + 1)).address =
      ((ins t).1 ((ins t).2)).a ∧
    (steererRun rankbits bankbits isPhase0 init ins (t + 1)).bank =
      ((ins t).1 ((ins t).2)).ba % 2 ^ bankbits ∧
    ((steererRun rankbits bankbits isPhase0 init ins (t + 1)).cas_n = false →
      ((ins t).1 ((ins t).2)).valid = true ∧
      ((ins t).1 ((ins t).2)).ready = true ∧
      ((ins t).1 ((ins t).2)).cas = true) ∧
    ((steererRun rankbits bankbits isPhase0 init ins (t + 1)).ras_n = false →
      ((ins t).1 ((ins t).2)).valid = true ∧
      ((ins t).1 ((ins t).2)).ready = true ∧
      ((ins t).1 ((ins t).2)).ras = true) ∧
    ((steererRun rankbits bankbits isPhase0 init ins (t + 1)).we_n = false →
      ((ins t).1 ((ins t).2)).valid = true ∧
      ((ins t).1 ((ins t).2)).ready = true ∧
      ((ins t).1 ((ins t).2)).we = true) ∧
    ((steererRun rankbits bankbits isPhase0 init ins (t + 1)).rddata_en = true →
      ((ins t).1 ((ins t).2)).valid = true ∧
      ((ins t).1 ((ins t).2)).ready = true ∧
      ((ins t).1 ((ins t).2)).is_read = true) ∧
    ((steererRun rankbits bankbits isPhase0 init ins (t + 1)).wrdata_en = true →
      ((ins t).1 ((ins t).2)).valid = true ∧
      ((ins t).1 ((ins t).2)).ready = true ∧
      ((ins t).1 ((ins t).2)).is_write = true) := by
  refine ⟨rfl, rfl, ?_, ?_, ?_, ?_, ?_⟩ <;>
  · intro h
    simp only [steererRun, steererPhaseNext, valid_and, Bool.not_eq_false',
      Bool.and_eq_true] at h
    exact ⟨h.1.1, h.1.2, h.2⟩

/-- Witness for C8 on a concrete one-cycle trace: the data-slot command's
address lands on the phase in cycle 1, and the asserted strobes certify the
command was valid and accepted in cycle 0. -/
theorem steerer_registered_outputs_witness :
    (steererRun 1 1 true exPhaseInit exSteerIns 1).address = 21 ∧
    (exSteerCmd.valid = true ∧ exSteerCmd.ready = true ∧
      exSteerCmd.cas = true) :=
  have h := steerer_registered_outputs 1 1 true exPhaseInit exSteerIns 0
  ⟨h.1, h.2.2.1 (by decide)⟩

/-- C9: the majority vote is idempotent (`vote x x x = x`), masks any single
divergent replica (`vote` of every permutation of `(x, x, y)` is `x`), and
is computed independently per bit of a multi-bit bus. -/
theorem vote_majority (x y : Nat) (_hxy : y ≠ x) :
    vote x x x = x ∧ vote x x y = x ∧ vote x y x = x ∧ vote y x x = x ∧
    (∀ a b c i, (vote a b c).testBit i =
      vote1 (a.testBit i) (b.testBit i) (c.testBit i)) := by
  have hbit : ∀ a b c i, (vote a b c).testBit i =
      vote1 (a.testBit i) (b.testBit i) (c.testBit i) := by
    intro a b c i
    simp [vote, vote1, Nat.testBit_or, Nat.testBit_and]
  refine ⟨?_, ?_, ?_, ?_, hbit⟩ <;>
  · apply Nat.eq_of_testBit_eq
    intro i
    rw [hbit]
    cases x.testBit i <;> cases y.testBit i <;> rfl

/-- Witness for C9 at concrete replica values 5 and 3. -/
theorem vote_majority_witness :
    vote 5 5 5 = 5 ∧ vote 5 5 3 = 5 ∧ vote 5 3 5 = 5 ∧ vote 3 5 5 = 5 :=
  have h := vote_majority 5 3 (by decide)
  ⟨h.1, h.2.1, h.2.2.1, h.2.2.2.1⟩

/-- C10: a bank machine's `req.ready` is high iff all three replica
lookahead FIFOs assert their sink ready, so an upstream request accepted
under the valid/ready handshake is enqueued into all three replica queues in
the same cycle. -/
theorem bank_req_ready_lockstep (reqValid r1 r2 r3 : Bool) :
    (bmReqReady r1 r2 r3 = true ↔ (r1 = true ∧ r2 = true ∧ r3 = true)) ∧
    ((reqValid && bmReqReady r1 r2 r3) = true →
      fifoEnq reqValid r1 = true ∧ fifoEnq reqValid r2 = true ∧
      fifoEnq reqValid r3 = true) := by
  revert reqValid r1 r2 r3
  decide

/-- Witness for C10: with a valid request and all three sinks ready, all
three replica FIFOs enqueue. -/
theorem bank_req_ready_lockstep_witness :
    fifoEnq true true = true ∧ fifoEnq true true = true ∧
    fifoEnq true true = true :=
  (bank_req_ready_lockstep true true true true).2 (by decide)

end LitexDRAMTMR
